import Mathlib

/-!
Verification of the credential-pool manager (`src/utils/server/KeyStore.ts`)
and the streaming relay (`src/pages/api/models.ts`, `OpenAIStream`) of the
chatbot-ui repository, as a shallow embedding in Lean 4.

Modelling conventions:
* JavaScript environment variables are `Option String`; JS truthiness of a
  string variable (`undefined`, `""` are falsy) is `envTruthy`.
* The external credential source (local file or key-server bulk fetch), once
  JSON-parsed, is a list of `{key, type}` records, passed in as a parameter.
* `Math.floor(Math.random() * keys.length)` is modelled by an oracle `pick`
  reduced modulo the list length, i.e. an arbitrary in-range index.
* The mutable static fields of the `KeyStore` class are an explicit
  `KeyStoreState` threaded through the functions; a function that throws in
  TS returns `Except.error` here, still paired with the post-state, since the
  static fields' mutations survive a throw.
* Each `getKey` call additionally reports how many times it invoked
  `loadKeys` (0 or 1), so load-once properties can be stated.
-/

/-- `KeyType` enum from KeyStore.ts (`HIGHEST`, `GPT3 = 3`, `GPT4`). -/
inductive KeyType : Type
  | HIGHEST
  | GPT3
  | GPT4
deriving DecidableEq, Repr

/-- Record of the credential source after `JSON.parse`: `{key, type}` with
`type` the literal string `"gpt-3"` or `"gpt-4"`. -/
structure KeyRecord : Type where
  key : String
  type : String
deriving DecidableEq, Repr

/-- A key after `loadKeys` has mapped the `type` string to the enum. -/
structure Key : Type where
  key : String
  type : KeyType
deriving DecidableEq, Repr

/-- The static mutable state of the `KeyStore` class:
`initialized`, `gpt3keys`, `gpt4keys`. -/
structure KeyStoreState : Type where
  initialized : Bool
  gpt3keys : List String
  gpt4keys : List String
deriving DecidableEq, Repr

/-- The relevant `process.env` variables. -/
structure Env : Type where
  OPENAI_API_KEY : Option String
  OPENAI_API_KEY_SERVER : Option String
  OPENAI_API_KEY_SERVER_AUTH : Option String
deriving DecidableEq, Repr

/-- JS truthiness of a possibly-unset string environment variable:
`undefined` and the empty string are falsy. -/
def envTruthy : Option String → Bool
  | none => false
  | some s => !s.isEmpty

/-- Errors thrown by the KeyStore operations:
`No keys available for GPT-...` and `Key server not configured`. -/
inductive KSError : Type
  | noKeys (ty : KeyType)
  | keyServerNotConfigured
deriving DecidableEq, Repr

/-- `loadKeys` (KeyStore.ts line 24): map each parsed record to a `Key`,
translating `type === "gpt-3"` to `GPT3` and anything else to `GPT4`. The
file read / server fetch itself is an external collaborator; its parsed
content is the `source` parameter. -/
def loadKeys (source : List KeyRecord) : List Key :=
  source.map (fun r => { key := r.key, type := if r.type = "gpt-3" then KeyType.GPT3 else KeyType.GPT4 })

/-- The `forEach` push loop of `getKey` (line 102): each loaded key is pushed
onto `gpt4keys` if its type is `GPT4`, else onto `gpt3keys`. -/
def pushKeys (ks : List Key) (st : KeyStoreState) : KeyStoreState :=
  ks.foldl
    (fun s k =>
      if k.type = KeyType.GPT4 then { s with gpt4keys := s.gpt4keys ++ [k.key] }
      else { s with gpt3keys := s.gpt3keys ++ [k.key] })
    st

/-- The `const keys = ...` selection of `getKey` (lines 103-105):
`HIGHEST` prefers `gpt4keys` when non-empty, else `gpt3keys`; `GPT3`
prefers `gpt3keys` when non-empty, else `gpt4keys`; `GPT4` is `gpt4keys`
with no fallback. -/
def selectKeys (ty : KeyType) (st : KeyStoreState) : List String :=
  match ty with
  | KeyType.HIGHEST => if st.gpt4keys.length > 0 then st.gpt4keys else st.gpt3keys
  | KeyType.GPT3 => if st.gpt3keys.length > 0 then st.gpt3keys else st.gpt4keys
  | KeyType.GPT4 => st.gpt4keys

/-- `KeyStore.getKey` (lines 99-109). Returns the result (key or thrown
error), the post-state, and the number of `loadKeys` calls performed.

TS source:
```
if (process.env.OPENAI_API_KEY) return process.env.OPENAI_API_KEY;
if (!this.initialized)
  (await this.loadKeys()).forEach(key => (key.type === KeyType.GPT4 ? this.gpt4keys : this.gpt3keys).push(key.key));
const keys = type === KeyType.HIGHEST
             ? (this.gpt4keys.length > 0 ? this.gpt4keys : this.gpt3keys)
             : (type === KeyType.GPT3 && this.gpt3keys.length > 0 ? this.gpt3keys : this.gpt4keys);
if (!keys.length) throw new Error(...);
this.initialized = true;
return keys[Math.floor(Math.random() * keys.length)];
```
-/
def getKey (env : Env) (source : List KeyRecord) (st : KeyStoreState) (pick : Nat)
    (ty : KeyType) : Except KSError String × KeyStoreState × Nat :=
  if envTruthy env.OPENAI_API_KEY then
    (Except.ok (env.OPENAI_API_KEY.getD ""), st, 0)
  else
    let st1 := if !st.initialized then pushKeys (loadKeys source) st else st
    let loads : Nat := if !st.initialized then 1 else 0
    let keys := selectKeys ty st1
    if keys.length = 0 then
      (Except.error (KSError.noKeys ty), st1, loads)
    else
      (Except.ok (keys.getD (pick % keys.length) ""),
       { st1 with initialized := true }, loads)

/-- `KeyStore.deleteKey` (lines 128-143). `serverSuccess` is the `success`
field of the key server's JSON reply (an external input). Throws
`Key server not configured` when either server variable is falsy; otherwise
clears both key lists, resets `initialized`, and returns the server's flag.

TS source:
```
if (!OPENAI_API_KEY_SERVER || !OPENAI_API_KEY_SERVER_AUTH) throw new Error("Key server not configured");
const response = await fetch(...).then(resp => resp.json()) as { success: boolean };
this.gpt3keys    = [];
this.gpt4keys    = [];
this.initialized = false;
return response.success;
```
-/
def deleteKey (env : Env) (key : String) (serverSuccess : Bool) (st : KeyStoreState) :
    Except KSError Bool × KeyStoreState :=
  if !(envTruthy env.OPENAI_API_KEY_SERVER) || !(envTruthy env.OPENAI_API_KEY_SERVER_AUTH) then
    (Except.error KSError.keyServerNotConfigured, st)
  else
    (Except.ok serverSuccess, { initialized := false, gpt3keys := [], gpt4keys := [] })

/-!
## Re-framing state machine (`OpenAIStream`, models.ts lines 174-201)

The upstream event-stream parsing (`eventsource-parser`, an external
collaborator) yields the `data` field of each complete `event:`-type record;
the `onParse` callback then runs `JSON.parse` on it and drives the
`ReadableStream` controller. The JSON level is modelled by `EventData`:
either a malformed payload (on which `JSON.parse` throws) or a parsed object
carrying its `choices` array; a choice carries `finish_reason` (absent or
`null` both modelled as `none`, since the source tests `!= null`) and the
optional `delta` object with its optional `content` string.

The `ReadableStream` default controller is modelled by the WHATWG semantics
restricted to the producer side: `enqueue` and `close` throw unless the
stream is readable, `error` is a no-op unless the stream is readable.
-/

/-- The `delta` object of a choice; `content` may be absent. -/
structure DeltaObj : Type where
  content : Option String
deriving DecidableEq, Repr

/-- One entry of the `choices` array of a parsed payload. -/
structure Choice : Type where
  finish_reason : Option String
  delta : Option DeltaObj
deriving DecidableEq, Repr

/-- The `data` payload of one upstream event, as seen by `JSON.parse`. -/
inductive EventData : Type
  | malformed
  | parsed (choices : List Choice)
deriving DecidableEq, Repr

/-- State of the output `ReadableStream`. -/
inductive CtrlState : Type
  | readable
  | closed
  | errored
deriving DecidableEq, Repr

/-- The output-stream controller: its state plus the byte chunks enqueued
while it was readable (the bytes the consumer can observe, in order). -/
structure Controller : Type where
  state : CtrlState
  chunks : List (List UInt8)
deriving DecidableEq, Repr

/-- UTF-8 byte encoding of a string (the byte content of `String.toUTF8`,
kept as a plain list so equalities are kernel-decidable). -/
def encodeString (s : String) : List UInt8 :=
  s.data.flatMap String.utf8EncodeChar

/-- `TextEncoder.encode(text)`: UTF-8 bytes of the string; an `undefined`
argument falls back to the empty string (WebIDL default), giving no bytes. -/
def encodeOpt : Option String → List UInt8
  | none => []
  | some s => encodeString s

/-- `controller.enqueue(chunk)`: appends the chunk when the stream is
readable, otherwise throws (modelled as `Except.error`). -/
def ctrlEnqueue (c : Controller) (bytes : List UInt8) : Except Unit Controller :=
  match c.state with
  | CtrlState.readable => Except.ok { c with chunks := c.chunks ++ [bytes] }
  | _ => Except.error ()

/-- `controller.close()`: closes a readable stream, otherwise throws. -/
def ctrlClose (c : Controller) : Except Unit Controller :=
  match c.state with
  | CtrlState.readable => Except.ok { c with state := CtrlState.closed }
  | _ => Except.error ()

/-- `controller.error(e)`: moves a readable stream to the errored state and
is a no-op otherwise (WHATWG: "If stream.[[state]] is not 'readable',
return"). -/
def ctrlError (c : Controller) : Controller :=
  match c.state with
  | CtrlState.readable => { c with state := CtrlState.errored }
  | _ => c

/-- The body of the `onParse` callback for one `event`-type record
(models.ts lines 176-193): inside a `try`, parse the JSON, close on a
non-null `finish_reason` of the first choice, else encode and enqueue the
first choice's `delta.content`; any throw (malformed JSON, missing
`choices[0]`, missing `delta`, or a controller call on a non-readable
stream) reaches the `catch`, which calls `controller.error(e)`. -/
def onParse (c : Controller) (ev : EventData) : Controller :=
  match ev with
  | EventData.malformed => ctrlError c
  | EventData.parsed choices =>
    match choices with
    | [] => ctrlError c
    | ch :: _ =>
      if ch.finish_reason.isSome then
        match ctrlClose c with
        | Except.ok c1 => c1
        | Except.error _ => ctrlError c
      else
        match ch.delta with
        | none => ctrlError c
        | some d =>
          match ctrlEnqueue c (encodeOpt d.content) with
          | Except.ok c1 => c1
          | Except.error _ => ctrlError c

/-- Feed a whole sequence of parsed upstream events through `onParse`
(the `for await` loop over body chunks, with the eventsource framing done
by the external parser). -/
def runEvents (c : Controller) (evs : List EventData) : Controller :=
  evs.foldl onParse c

/-!
## Relay retry loop (`OpenAIStream`, models.ts lines 110-172)

`OpenAIStream` resolves a credential (the caller-supplied `key` if truthy,
else `KeyStore.getKey` at the tier derived from the model id), issues the
upstream call, and on a non-200 response whose error body carries code
`"invalid_api_key"` deletes the key, acquires a replacement with
`KeyStore.getKey()` (default `HIGHEST` tier), and recurses. The upstream
transport is an external collaborator: the response of attempt `n` is
`responses[n]`; oracles `picks` and `srv` supply the random index of each
`getKey` call and the key server's `success` flag for each `deleteKey`. -/

/-- A non-200 upstream body: `result.error` present (with its `code` and
`message`) or absent. -/
inductive UpBody : Type
  | withError (code : String) (message : String)
  | noError (statusText : String)
deriving DecidableEq, Repr

/-- One upstream response: HTTP status, parsed JSON body (for the non-200
path), and the event stream of the body (for the 200 path). -/
structure UpResponse : Type where
  status : Nat
  body : UpBody
  events : List EventData
deriving DecidableEq, Repr

/-- Errors with which the `OpenAIStream` promise can reject. -/
inductive RelayError : Type
  | openAIErr (code : String) (message : String)
  | genericUpstream (text : String)
  | ks (e : KSError)
  | noResponse
deriving DecidableEq, Repr

/-- `const keyType = model.id === "gpt-4" ? KeyType.GPT4 : KeyType.GPT3`
(models.ts line 117). -/
def keyTypeFor (modelId : String) : KeyType :=
  if modelId = "gpt-4" then KeyType.GPT4 else KeyType.GPT3

/-- Credential resolution at the head of `OpenAIStream` (line 118:
`if (!key) key = await KeyStore.getKey(keyType)`): a falsy (empty) `key`
argument is replaced by a `getKey` call at the tier derived from the model
id; a thrown `getKey` error rejects the whole call. -/
def resolveKey (env : Env) (source : List KeyRecord) (picks : Nat → Nat)
    (modelId : String) (n : Nat) (key0 : String) (st0 : KeyStoreState) :
    Except (KSError × KeyStoreState) (String × KeyStoreState) :=
  if key0.isEmpty then
    match getKey env source st0 (picks (2 * n)) (keyTypeFor modelId) with
    | (Except.error e, st1, _) => Except.error (e, st1)
    | (Except.ok k, st1, _) => Except.ok (k, st1)
  else Except.ok (key0, st0)

/-- The recursive core of `OpenAIStream`: attempt `n` resolves the
credential (line 118: `if (!key) key = await KeyStore.getKey(keyType)`),
consumes the next upstream response, and either returns the event stream
(status 200), rejects, or — on error code `"invalid_api_key"` — runs
`deleteKey` (whose boolean result is discarded, but whose thrown error
propagates through `await`), acquires a replacement with the default
`HIGHEST` tier (line 161: `KeyStore.getKey()`), and recurses. On success
returns the upstream events together with the credential used. -/
def openAIStreamGo (env : Env) (source : List KeyRecord) (picks : Nat → Nat)
    (srv : Nat → Bool) (modelId : String) :
    List UpResponse → Nat → String → KeyStoreState →
    Except RelayError (List EventData × String) × KeyStoreState
  | responses, n, key0, st0 =>
    match resolveKey env source picks modelId n key0 st0 with
    | Except.error (e, st1) => (Except.error (RelayError.ks e), st1)
    | Except.ok (key, st1) =>
      match responses with
      | [] => (Except.error RelayError.noResponse, st1)
      | r :: rest =>
        if r.status = 200 then (Except.ok (r.events, key), st1)
        else
          match r.body with
          | UpBody.withError code msg =>
            if code = "invalid_api_key" then
              match deleteKey env key (srv n) st1 with
              | (Except.error e, st2) => (Except.error (RelayError.ks e), st2)
              | (Except.ok _, st2) =>
                match getKey env source st2 (picks (2 * n + 1)) KeyType.HIGHEST with
                | (Except.error e, st3, _) => (Except.error (RelayError.ks e), st3)
                | (Except.ok k2, st3, _) =>
                  openAIStreamGo env source picks srv modelId rest (n + 1) k2 st3
            else (Except.error (RelayError.openAIErr code msg), st1)
          | UpBody.noError txt => (Except.error (RelayError.genericUpstream txt), st1)

/-- `OpenAIStream` entry point: attempt 0 with the caller-supplied key
(possibly empty, i.e. falsy). -/
def openAIStream (env : Env) (source : List KeyRecord) (picks : Nat → Nat)
    (srv : Nat → Bool) (modelId : String) (key : String)
    (responses : List UpResponse) (st : KeyStoreState) :
    Except RelayError (List EventData × String) × KeyStoreState :=
  openAIStreamGo env source picks srv modelId responses 0 key st

/-- A sequence of `getKey` calls (each given by its random pick and its tier
argument), threading the KeyStore state and summing the number of
`loadKeys` invocations. -/
def runGetKeys (env : Env) (source : List KeyRecord) :
    List (Nat × KeyType) → KeyStoreState → KeyStoreState × Nat
  | [], st => (st, 0)
  | c :: rest, st =>
    let r := getKey env source st c.1 c.2
    let r2 := runGetKeys env source rest r.2.1
    (r2.1, r.2.2 + r2.2)

/-- The keys that the `forEach` push loop sends to `gpt3keys`
(everything whose mapped type is not `GPT4`). -/
def gpt3Part (ks : List Key) : List String :=
  (ks.filter (fun k => !(decide (k.type = KeyType.GPT4)))).map Key.key

/-- The keys that the `forEach` push loop sends to `gpt4keys`. -/
def gpt4Part (ks : List Key) : List String :=
  (ks.filter (fun k => decide (k.type = KeyType.GPT4))).map Key.key

/-!
## Helper lemmas
-/

theorem getD_mod_mem (l : List String) (h : ¬ l.length = 0) (i : Nat) :
    l.getD (i % l.length) "" ∈ l := by
  have hlt : i % l.length < l.length := Nat.mod_lt _ (Nat.pos_of_ne_zero h)
  rw [List.getD_eq_getElem?_getD, List.getElem?_eq_getElem hlt]
  simp [List.getElem_mem]

theorem pushKeys_cons (k : Key) (ks : List Key) (st : KeyStoreState) :
    pushKeys (k :: ks) st =
      pushKeys ks
        (if k.type = KeyType.GPT4 then { st with gpt4keys := st.gpt4keys ++ [k.key] }
         else { st with gpt3keys := st.gpt3keys ++ [k.key] }) := rfl

theorem pushKeys_eq (ks : List Key) (st : KeyStoreState) :
    pushKeys ks st =
      ⟨st.initialized, st.gpt3keys ++ gpt3Part ks, st.gpt4keys ++ gpt4Part ks⟩ := by
  induction ks generalizing st with
  | nil => simp [pushKeys, gpt3Part, gpt4Part]
  | cons k ks ih =>
    rw [pushKeys_cons, ih]
    by_cases h : k.type = KeyType.GPT4 <;>
      simp [h, gpt3Part, gpt4Part, List.filter_cons]

theorem mem_gpt3Part {k : String} {ks : List Key} (h : k ∈ gpt3Part ks) :
    k ∈ ks.map Key.key := by
  simp only [gpt3Part, List.mem_map, List.mem_filter] at h ⊢
  obtain ⟨x, hx, hk⟩ := h
  exact ⟨x, hx.1, hk⟩

theorem mem_gpt4Part {k : String} {ks : List Key} (h : k ∈ gpt4Part ks) :
    k ∈ ks.map Key.key := by
  simp only [gpt4Part, List.mem_map, List.mem_filter] at h ⊢
  obtain ⟨x, hx, hk⟩ := h
  exact ⟨x, hx.1, hk⟩

theorem mem_selectKeys {k : String} (ty : KeyType) (st : KeyStoreState)
    (h : k ∈ selectKeys ty st) : k ∈ st.gpt3keys ∨ k ∈ st.gpt4keys := by
  cases ty <;> simp only [selectKeys] at h
  · split at h
    · exact Or.inr h
    · exact Or.inl h
  · split at h
    · exact Or.inl h
    · exact Or.inr h
  · exact Or.inr h

theorem deleteKey_configured (env : Env) (key : String) (b : Bool) (st : KeyStoreState)
    (hs : envTruthy env.OPENAI_API_KEY_SERVER = true)
    (ha : envTruthy env.OPENAI_API_KEY_SERVER_AUTH = true) :
    deleteKey env key b st = (Except.ok b, ⟨false, [], []⟩) := by
  simp [deleteKey, hs, ha]

theorem getKey_initialized (env : Env) (source : List KeyRecord) (st : KeyStoreState)
    (pick : Nat) (ty : KeyType) (hov : envTruthy env.OPENAI_API_KEY = false)
    (hin : st.initialized = true) :
    (getKey env source st pick ty).2.1 = st ∧ (getKey env source st pick ty).2.2 = 0 := by
  rcases st with ⟨i, g3, g4⟩
  simp only [KeyStoreState.initialized] at hin
  subst hin
  simp only [getKey, hov, Bool.false_eq_true, if_false, Bool.not_true, if_neg]
  split <;> simp

theorem runGetKeys_initialized (env : Env) (source : List KeyRecord)
    (calls : List (Nat × KeyType)) (st : KeyStoreState)
    (hov : envTruthy env.OPENAI_API_KEY = false) (hin : st.initialized = true) :
    runGetKeys env source calls st = (st, 0) := by
  induction calls with
  | nil => rfl
  | cons c rest ih =>
    have h := getKey_initialized env source st c.1 c.2 hov hin
    simp [runGetKeys, h.1, h.2, ih]

theorem ctrlError_terminal (c : Controller) (h : ¬ c.state = CtrlState.readable) :
    ctrlError c = c := by
  rcases c with ⟨s, ch⟩
  cases s <;> simp_all [ctrlError]

theorem onParse_terminal (c : Controller) (ev : EventData)
    (h : ¬ c.state = CtrlState.readable) : onParse c ev = c := by
  rcases c with ⟨s, ch⟩
  cases s with
  | readable => exact absurd rfl h
  | closed =>
    cases ev with
    | malformed => simp [onParse, ctrlError]
    | parsed chs =>
      cases chs with
      | nil => simp [onParse, ctrlError]
      | cons c0 rest =>
        cases hd : c0.delta <;>
          cases hf : c0.finish_reason.isSome <;>
            simp [onParse, ctrlError, ctrlClose, ctrlEnqueue, hd, hf]
  | errored =>
    cases ev with
    | malformed => simp [onParse, ctrlError]
    | parsed chs =>
      cases chs with
      | nil => simp [onParse, ctrlError]
      | cons c0 rest =>
        cases hd : c0.delta <;>
          cases hf : c0.finish_reason.isSome <;>
            simp [onParse, ctrlError, ctrlClose, ctrlEnqueue, hd, hf]

theorem runEvents_append (c : Controller) (xs ys : List EventData) :
    runEvents c (xs ++ ys) = runEvents (runEvents c xs) ys := by
  simp [runEvents, List.foldl_append]

theorem runEvents_terminal (c : Controller) (evs : List EventData)
    (h : ¬ c.state = CtrlState.readable) : runEvents c evs = c := by
  induction evs with
  | nil => rfl
  | cons e rest ih =>
    have h1 : runEvents c (e :: rest) = runEvents (onParse c e) rest := rfl
    rw [h1, onParse_terminal c e h]
    exact ih

theorem getKey_init_eq (env : Env) (source : List KeyRecord) (st : KeyStoreState)
    (pick : Nat) (ty : KeyType) (hov : envTruthy env.OPENAI_API_KEY = false)
    (hin : st.initialized = true) :
    getKey env source st pick ty =
      ((if (selectKeys ty st).length = 0 then Except.error (KSError.noKeys ty)
        else Except.ok ((selectKeys ty st).getD (pick % (selectKeys ty st).length) "")),
       st, 0) := by
  rcases st with ⟨i, g3, g4⟩
  simp only [KeyStoreState.initialized] at hin
  subst hin
  simp only [getKey, hov, Bool.false_eq_true, if_false, Bool.not_true]
  split <;> simp_all

theorem openAIStreamGo_nil (env : Env) (source : List KeyRecord) (picks : Nat → Nat)
    (srv : Nat → Bool) (modelId : String) (n : Nat) (key0 : String) (st0 : KeyStoreState) :
    openAIStreamGo env source picks srv modelId [] n key0 st0 =
      match resolveKey env source picks modelId n key0 st0 with
      | Except.error (e, st1) => (Except.error (RelayError.ks e), st1)
      | Except.ok (_, st1) => (Except.error RelayError.noResponse, st1) := by
  rw [openAIStreamGo.eq_1]

theorem openAIStreamGo_cons (env : Env) (source : List KeyRecord) (picks : Nat → Nat)
    (srv : Nat → Bool) (modelId : String) (r : UpResponse) (rest : List UpResponse)
    (n : Nat) (key0 : String) (st0 : KeyStoreState) :
    openAIStreamGo env source picks srv modelId (r :: rest) n key0 st0 =
      match resolveKey env source picks modelId n key0 st0 with
      | Except.error (e, st1) => (Except.error (RelayError.ks e), st1)
      | Except.ok (key, st1) =>
        if r.status = 200 then (Except.ok (r.events, key), st1)
        else
          match r.body with
          | UpBody.withError code msg =>
            if code = "invalid_api_key" then
              match deleteKey env key (srv n) st1 with
              | (Except.error e, st2) => (Except.error (RelayError.ks e), st2)
              | (Except.ok _, st2) =>
                match getKey env source st2 (picks (2 * n + 1)) KeyType.HIGHEST with
                | (Except.error e, st3, _) => (Except.error (RelayError.ks e), st3)
                | (Except.ok k2, st3, _) =>
                  openAIStreamGo env source picks srv modelId rest (n + 1) k2 st3
            else (Except.error (RelayError.openAIErr code msg), st1)
          | UpBody.noError txt => (Except.error (RelayError.genericUpstream txt), st1) := by
  rw [openAIStreamGo.eq_1]

theorem relay_never_auth (env : Env) (source : List KeyRecord) (picks : Nat → Nat)
    (srv : Nat → Bool) (modelId : String) :
    ∀ (responses : List UpResponse) (n : Nat) (key : String) (st : KeyStoreState) (m : String),
      (openAIStreamGo env source picks srv modelId responses n key st).1 ≠
        Except.error (RelayError.openAIErr "invalid_api_key" m) := by
  intro responses
  induction responses with
  | nil =>
    intro n key st m
    rw [openAIStreamGo_nil]
    cases hres : resolveKey env source picks modelId n key st with
    | error es => obtain ⟨e, st1⟩ := es; simp
    | ok ks => obtain ⟨k1, st1⟩ := ks; simp
  | cons r rest ih =>
    intro n key st m
    rw [openAIStreamGo_cons]
    cases hres : resolveKey env source picks modelId n key st with
    | error es => obtain ⟨e, st1⟩ := es; simp
    | ok ks =>
      obtain ⟨key1, st1⟩ := ks
      by_cases hst : r.status = 200
      · simp [hst]
      · simp only [hst, if_false]
        cases hb : r.body with
        | noError txt => simp
        | withError code msg =>
          by_cases hcode : code = "invalid_api_key"
          · subst hcode
            simp only [if_pos rfl]
            cases hdel : deleteKey env key1 (srv n) st1 with
            | mk fst st2 =>
              try simp only [hdel]
              cases fst with
              | error e => simp
              | ok b =>
                cases hg : getKey env source st2 (picks (2 * n + 1)) KeyType.HIGHEST with
                | mk gfst gsnd =>
                  try simp only [hg]
                  obtain ⟨st3, ld⟩ := gsnd
                  cases gfst with
                  | error e => simp
                  | ok k2 => exact ih (n + 1) k2 st3 m
          · simp [hcode]

/-!
## Claims
-/

/-- Claim C1, counterexample. The claim states that the key sets are cleared
and `initialized` reset if and only if the server reports success, and that
on a reported failure the pool state is unchanged. On the concrete input
below the server reports failure (`success: false`), `deleteKey` duly
returns `false`, yet the pool state has still been cleared (lines 139-141
run unconditionally), so it is not the original state. -/
theorem C1_counterexample :
    deleteKey ⟨none, some "s", some "a"⟩ "b4" false ⟨true, ["a3"], ["b4"]⟩
      = (Except.ok false, ⟨false, [], []⟩) ∧
    (⟨false, [], []⟩ : KeyStoreState) ≠ ⟨true, ["a3"], ["b4"]⟩ := by
  constructor
  · rfl
  · decide

/-- Claim C1, amended: whenever the key server is configured, `deleteKey`
clears both in-memory key sets and resets `initialized` unconditionally —
on server-reported success and failure alike — and returns exactly the
server-reported success flag. -/
theorem C1_amended (env : Env) (key : String) (b : Bool) (st : KeyStoreState)
    (hs : envTruthy env.OPENAI_API_KEY_SERVER = true)
    (ha : envTruthy env.OPENAI_API_KEY_SERVER_AUTH = true) :
    deleteKey env key b st = (Except.ok b, ⟨false, [], []⟩) := by
  simp [deleteKey, hs, ha]

/-- Claim C1, witness for the amended theorem at a concrete input. -/
theorem C1_amended_witness :
    deleteKey ⟨none, some "srv7", some "auth7"⟩ "w1" false ⟨true, ["w1"], ["w2"]⟩
      = (Except.ok false, ⟨false, [], []⟩) :=
  C1_amended ⟨none, some "srv7", some "auth7"⟩ "w1" false ⟨true, ["w1"], ["w2"]⟩
    (by decide) (by decide)

/-- Claim C2, counterexample. The claim states that a failure of the
eviction step itself — including `evict` throwing `KeyServerNotConfigured`
— is ignored and never propagates to the relay's caller. On the concrete
input below no key server is configured, the first upstream response
carries error code `invalid_api_key`, a further pool credential and a
second (200) response are available, yet the relay's result is exactly the
eviction step's thrown `KeyServerNotConfigured` error: the `await
KeyStore.deleteKey(key)` rethrows and the rejection reaches the caller
instead of being ignored. -/
theorem C2_counterexample :
    (openAIStream ⟨none, none, none⟩ [⟨"r3", "gpt-3"⟩] (fun _ => 0) (fun _ => true) "gpt-3"
        "kx" [⟨401, UpBody.withError "invalid_api_key" "bad key", []⟩,
              ⟨200, UpBody.noError "OK", []⟩] ⟨true, ["kx", "r3"], []⟩).1
      = Except.error (RelayError.ks KSError.keyServerNotConfigured) := rfl

/-- Claim C2, amended: in the relay's auth-failure retry loop, an eviction
step that completes but reports failure (`evict` returning false) is
ignored — the relay's behaviour is identical whatever boolean the key
server reports for each deletion, and it still acquires a new credential
and retries; but an eviction step that throws (`KeyServerNotConfigured`)
does propagate to the relay's caller (see the counterexample). Formally:
when the key server is configured, the relay's result does not depend on
the server-reported success flags at all. -/
theorem C2_amended (env : Env) (source : List KeyRecord) (picks : Nat → Nat)
    (srv1 srv2 : Nat → Bool) (modelId : String) (responses : List UpResponse)
    (n : Nat) (key : String) (st : KeyStoreState)
    (hs : envTruthy env.OPENAI_API_KEY_SERVER = true)
    (ha : envTruthy env.OPENAI_API_KEY_SERVER_AUTH = true) :
    openAIStreamGo env source picks srv1 modelId responses n key st =
      openAIStreamGo env source picks srv2 modelId responses n key st := by
  induction responses generalizing n key st with
  | nil =>
    rw [openAIStreamGo_nil, openAIStreamGo_nil]
  | cons r rest ih =>
    rw [openAIStreamGo_cons, openAIStreamGo_cons]
    cases hres : resolveKey env source picks modelId n key st with
    | error es => rfl
    | ok ks =>
      obtain ⟨key1, st1⟩ := ks
      by_cases hst : r.status = 200
      · simp [hst]
      · simp only [hst, if_false]
        cases hb : r.body with
        | noError txt => simp
        | withError code msg =>
          by_cases hcode : code = "invalid_api_key"
          · subst hcode
            simp only [if_pos rfl, deleteKey_configured env key1 (srv1 n) st1 hs ha,
                       deleteKey_configured env key1 (srv2 n) st1 hs ha]
            cases hg : getKey env source ⟨false, [], []⟩ (picks (2 * n + 1)) KeyType.HIGHEST with
            | mk fst snd =>
              obtain ⟨st2, ld⟩ := snd
              cases fst with
              | error e => simp [hg]
              | ok k2 =>
                simp only [hg]
                exact ih (n + 1) k2 st2
          · simp [hcode]

/-- Claim C2, witness for the amended theorem: a run in which every
deletion is reported as failed equals the run in which every deletion is
reported as successful. -/
theorem C2_amended_witness :
    openAIStreamGo ⟨none, some "s2", some "a2"⟩ [⟨"n1", "gpt-4"⟩] (fun _ => 0) (fun _ => false)
        "gpt-4" [⟨401, UpBody.withError "invalid_api_key" "m", []⟩, ⟨200, UpBody.noError "OK", []⟩]
        0 "u1" ⟨true, [], ["u1"]⟩
      = openAIStreamGo ⟨none, some "s2", some "a2"⟩ [⟨"n1", "gpt-4"⟩] (fun _ => 0) (fun _ => true)
        "gpt-4" [⟨401, UpBody.withError "invalid_api_key" "m", []⟩, ⟨200, UpBody.noError "OK", []⟩]
        0 "u1" ⟨true, [], ["u1"]⟩ :=
  C2_amended ⟨none, some "s2", some "a2"⟩ [⟨"n1", "gpt-4"⟩] (fun _ => 0) (fun _ => false)
    (fun _ => true) "gpt-4"
    [⟨401, UpBody.withError "invalid_api_key" "m", []⟩, ⟨200, UpBody.noError "OK", []⟩]
    0 "u1" ⟨true, [], ["u1"]⟩ (by decide) (by decide)

/-- Claim C3, counterexample. The claim states that on an upstream response
whose error body carries code `invalid_api_key`, the relay retries without
surfacing any error to the caller as long as a replacement credential
exists. On the concrete input below a replacement exists — re-acquiring
from the source after the reset would succeed with the distinct key
`"rep"`, as the second conjunct shows — yet the caller receives the
`KeyServerNotConfigured` error, because no key server is configured and
the eviction step's exception propagates. -/
theorem C3_counterexample :
    (openAIStream ⟨none, none, none⟩ [⟨"rep", "gpt-4"⟩] (fun _ => 0) (fun _ => true) "gpt-4"
        "old" [⟨401, UpBody.withError "invalid_api_key" "bad", []⟩, ⟨200, UpBody.noError "OK", []⟩]
        ⟨true, [], ["old", "rep"]⟩).1
      = Except.error (RelayError.ks KSError.keyServerNotConfigured) ∧
    (getKey ⟨none, none, none⟩ [⟨"rep", "gpt-4"⟩] ⟨false, [], []⟩ 0 KeyType.HIGHEST).1
      = Except.ok "rep" := ⟨rfl, rfl⟩

/-- Claim C3, amended: provided the key server is configured (so the
eviction step cannot throw), a non-success upstream response whose error
body carries code `invalid_api_key` makes the relay evict the used
credential and retry with a freshly acquired one: (1) if the replacement
acquisition succeeds (with a non-empty key), the caller gets the retried
attempt's stream and no error; (2) if the replacement acquisition fails,
the caller receives exactly that acquisition error (`NoCredentialsAvailable`
when the pool is exhausted); and (3) in all cases — any responses, any
state — the upstream auth error itself never reaches the caller in any
form. -/
theorem C3_amended (env : Env) (source : List KeyRecord) (picks : Nat → Nat) (srv : Nat → Bool)
    (modelId key msg : String) (st : KeyStoreState) (r1 r2 : UpResponse)
    (hs : envTruthy env.OPENAI_API_KEY_SERVER = true)
    (ha : envTruthy env.OPENAI_API_KEY_SERVER_AUTH = true)
    (hkey : key.isEmpty = false)
    (h1s : ¬ r1.status = 200)
    (h1b : r1.body = UpBody.withError "invalid_api_key" msg)
    (h2s : r2.status = 200) :
    (∀ k2 st2 ld,
      getKey env source ⟨false, [], []⟩ (picks 1) KeyType.HIGHEST = (Except.ok k2, st2, ld) →
      k2.isEmpty = false →
      openAIStream env source picks srv modelId key [r1, r2] st
        = (Except.ok (r2.events, k2), st2)) ∧
    (∀ e st2 ld,
      getKey env source ⟨false, [], []⟩ (picks 1) KeyType.HIGHEST = (Except.error e, st2, ld) →
      openAIStream env source picks srv modelId key [r1, r2] st
        = (Except.error (RelayError.ks e), st2)) ∧
    (∀ (responses : List UpResponse) (n : Nat) (key0 : String) (st0 : KeyStoreState) (m : String),
      (openAIStreamGo env source picks srv modelId responses n key0 st0).1 ≠
        Except.error (RelayError.openAIErr "invalid_api_key" m)) := by
  have hres : resolveKey env source picks modelId 0 key st = Except.ok (key, st) := by
    simp [resolveKey, hkey]
  have hone : (2 * 0 + 1 : Nat) = 1 := rfl
  refine ⟨?_, ?_,
    fun responses n key0 st0 m =>
      relay_never_auth env source picks srv modelId responses n key0 st0 m⟩
  · intro k2 st2 ld hget hk2
    have hres2 : resolveKey env source picks modelId 1 k2 st2 = Except.ok (k2, st2) := by
      simp [resolveKey, hk2]
    unfold openAIStream
    rw [openAIStreamGo_cons, hres]
    simp only [h1s, if_false, h1b, if_pos rfl,
      deleteKey_configured env key (srv 0) st hs ha, hone, hget]
    rw [openAIStreamGo_cons, hres2]
    simp [h2s]
  · intro e st2 ld hget
    unfold openAIStream
    rw [openAIStreamGo_cons, hres]
    simp only [h1s, if_false, h1b, if_pos rfl,
      deleteKey_configured env key (srv 0) st hs ha, hone, hget]
    simp

/-- Claim C3, witness for the amended theorem: on a configured key server,
a 401 `invalid_api_key` response followed by a 200 response ends with the
relay succeeding on the freshly acquired replacement credential `"n3"`,
surfacing no error. -/
theorem C3_amended_witness :
    openAIStream ⟨none, some "s3", some "a3"⟩ [⟨"n3", "gpt-4"⟩] (fun _ => 0) (fun _ => true)
        "gpt-4" "o3" [⟨401, UpBody.withError "invalid_api_key" "m3", []⟩,
                      ⟨200, UpBody.noError "OK", []⟩] ⟨true, [], ["o3"]⟩
      = (Except.ok ([], "n3"), ⟨true, [], ["n3"]⟩) :=
  (C3_amended ⟨none, some "s3", some "a3"⟩ [⟨"n3", "gpt-4"⟩] (fun _ => 0) (fun _ => true)
      "gpt-4" "o3" "m3" ⟨true, [], ["o3"]⟩
      ⟨401, UpBody.withError "invalid_api_key" "m3", []⟩ ⟨200, UpBody.noError "OK", []⟩
      (by decide) (by decide) (by decide) (by decide) rfl (by decide)).1
    "n3" ⟨true, [], ["n3"]⟩ 1 rfl (by decide)

/-- Claim C4 (confirmed): for the upstream event sequence consisting of a
delta event with content "Hel", a delta event with content "lo", and an
event whose first choice has a non-null finish reason, the re-framing
producer enqueues the byte encodings of "Hel" then "lo" in that order and
then closes the output stream successfully; the byte-exact concatenation
of all emitted output equals the encoding of "Hello". -/
theorem C4_reframing :
    runEvents ⟨CtrlState.readable, []⟩
        [EventData.parsed [⟨none, some ⟨some "Hel"⟩⟩],
         EventData.parsed [⟨none, some ⟨some "lo"⟩⟩],
         EventData.parsed [⟨some "stop", some ⟨none⟩⟩]]
      = ⟨CtrlState.closed, [encodeString "Hel", encodeString "lo"]⟩ ∧
    List.flatten [encodeString "Hel", encodeString "lo"] = encodeString "Hello" := by
  constructor
  · rfl
  · decide

/-- Claim C5 (confirmed): if a malformed data record (on which `JSON.parse`
throws) is processed while the output stream is still readable, the stream
moves to the errored state at that record and the emitted chunks never grow
afterwards, whatever events follow; and in general no transition leaves the
closed or errored state of the output stream and nothing further is ever
emitted from those states. -/
theorem C5_closed_terminal (c0 : Controller) (pre post : List EventData)
    (h : (runEvents c0 pre).state = CtrlState.readable) :
    (runEvents c0 (pre ++ EventData.malformed :: post)).state = CtrlState.errored ∧
    (runEvents c0 (pre ++ EventData.malformed :: post)).chunks = (runEvents c0 pre).chunks ∧
    ∀ (c : Controller) (evs : List EventData),
      ¬ c.state = CtrlState.readable → runEvents c evs = c := by
  have herr : onParse (runEvents c0 pre) EventData.malformed =
      ⟨CtrlState.errored, (runEvents c0 pre).chunks⟩ := by
    rcases hc : runEvents c0 pre with ⟨s, ch⟩
    rw [hc] at h
    simp only at h
    subst h
    rfl
  have hstep : runEvents (runEvents c0 pre) (EventData.malformed :: post) =
      runEvents (onParse (runEvents c0 pre) EventData.malformed) post := rfl
  have happ : runEvents c0 (pre ++ EventData.malformed :: post) =
      runEvents ⟨CtrlState.errored, (runEvents c0 pre).chunks⟩ post := by
    rw [runEvents_append, hstep, herr]
  rw [happ, runEvents_terminal _ _ (by simp)]
  exact ⟨rfl, rfl, fun c evs hc => runEvents_terminal c evs hc⟩

/-- Claim C5, witness: a concrete trace with a delta, then a malformed
record, then another delta ends errored with only the first delta's bytes
emitted; and a closed controller is untouched by a further event. -/
theorem C5_closed_terminal_witness :
    (runEvents ⟨CtrlState.readable, []⟩
        ([EventData.parsed [⟨none, some ⟨some "w"⟩⟩]] ++ EventData.malformed ::
          [EventData.parsed [⟨none, some ⟨some "x"⟩⟩]])).state = CtrlState.errored ∧
    (runEvents ⟨CtrlState.readable, []⟩
        ([EventData.parsed [⟨none, some ⟨some "w"⟩⟩]] ++ EventData.malformed ::
          [EventData.parsed [⟨none, some ⟨some "x"⟩⟩]])).chunks
      = (runEvents ⟨CtrlState.readable, []⟩ [EventData.parsed [⟨none, some ⟨some "w"⟩⟩]]).chunks ∧
    runEvents ⟨CtrlState.closed, [[87]]⟩ [EventData.malformed] = ⟨CtrlState.closed, [[87]]⟩ :=
  ⟨(C5_closed_terminal ⟨CtrlState.readable, []⟩ [EventData.parsed [⟨none, some ⟨some "w"⟩⟩]]
      [EventData.parsed [⟨none, some ⟨some "x"⟩⟩]] (by decide)).1,
   (C5_closed_terminal ⟨CtrlState.readable, []⟩ [EventData.parsed [⟨none, some ⟨some "w"⟩⟩]]
      [EventData.parsed [⟨none, some ⟨some "x"⟩⟩]] (by decide)).2.1,
   (C5_closed_terminal ⟨CtrlState.readable, []⟩ [EventData.parsed [⟨none, some ⟨some "w"⟩⟩]]
      [EventData.parsed [⟨none, some ⟨some "x"⟩⟩]] (by decide)).2.2
     ⟨CtrlState.closed, [[87]]⟩ [EventData.malformed] (by decide)⟩

/-- Claim C6 (confirmed): for an acquire call without an override
credential on a populated (initialized) pool: with tier `HIGHEST` the
returned credential comes from the Premium (`gpt4keys`) set whenever it is
non-empty and otherwise from the Standard (`gpt3keys`) set; with tier
`GPT3` it comes from the Standard set if non-empty and otherwise from the
Premium set; and the call fails with `NoCredentialsAvailable` exactly when
the chosen tier's effective set after this fallback is empty. -/
theorem C6_tier_selection (env : Env) (source : List KeyRecord) (st : KeyStoreState)
    (pick : Nat) (hov : envTruthy env.OPENAI_API_KEY = false)
    (hin : st.initialized = true) :
    (st.gpt4keys ≠ [] →
      ∃ k, (getKey env source st pick KeyType.HIGHEST).1 = Except.ok k ∧ k ∈ st.gpt4keys) ∧
    (st.gpt4keys = [] → st.gpt3keys ≠ [] →
      ∃ k, (getKey env source st pick KeyType.HIGHEST).1 = Except.ok k ∧ k ∈ st.gpt3keys) ∧
    (st.gpt4keys = [] → st.gpt3keys = [] →
      (getKey env source st pick KeyType.HIGHEST).1
        = Except.error (KSError.noKeys KeyType.HIGHEST)) ∧
    (st.gpt3keys ≠ [] →
      ∃ k, (getKey env source st pick KeyType.GPT3).1 = Except.ok k ∧ k ∈ st.gpt3keys) ∧
    (st.gpt3keys = [] → st.gpt4keys ≠ [] →
      ∃ k, (getKey env source st pick KeyType.GPT3).1 = Except.ok k ∧ k ∈ st.gpt4keys) ∧
    (st.gpt3keys = [] → st.gpt4keys = [] →
      (getKey env source st pick KeyType.GPT3).1
        = Except.error (KSError.noKeys KeyType.GPT3)) := by
  have h4 := getKey_init_eq env source st pick KeyType.HIGHEST hov hin
  have h3 := getKey_init_eq env source st pick KeyType.GPT3 hov hin
  refine ⟨?_, ?_, ?_, ?_, ?_, ?_⟩
  · intro hne
    have hsel : selectKeys KeyType.HIGHEST st = st.gpt4keys := by
      simp [selectKeys, List.length_pos.mpr hne]
    have hlen : ¬ st.gpt4keys.length = 0 :=
      fun h0 => hne (List.length_eq_zero.mp h0)
    refine ⟨st.gpt4keys.getD (pick % st.gpt4keys.length) "", ?_, getD_mod_mem _ hlen _⟩
    rw [h4]
    simp [hsel, hlen]
  · intro h4e hne
    have hsel : selectKeys KeyType.HIGHEST st = st.gpt3keys := by
      simp [selectKeys, h4e]
    have hlen : ¬ st.gpt3keys.length = 0 :=
      fun h0 => hne (List.length_eq_zero.mp h0)
    refine ⟨st.gpt3keys.getD (pick % st.gpt3keys.length) "", ?_, getD_mod_mem _ hlen _⟩
    rw [h4]
    simp [hsel, hlen]
  · intro h4e h3e
    have hsel : selectKeys KeyType.HIGHEST st = [] := by
      simp [selectKeys, h4e, h3e]
    rw [h4]
    simp [hsel]
  · intro hne
    have hsel : selectKeys KeyType.GPT3 st = st.gpt3keys := by
      simp [selectKeys, List.length_pos.mpr hne]
    have hlen : ¬ st.gpt3keys.length = 0 :=
      fun h0 => hne (List.length_eq_zero.mp h0)
    refine ⟨st.gpt3keys.getD (pick % st.gpt3keys.length) "", ?_, getD_mod_mem _ hlen _⟩
    rw [h3]
    simp [hsel, hlen]
  · intro h3e hne
    have hsel : selectKeys KeyType.GPT3 st = st.gpt4keys := by
      simp [selectKeys, h3e]
    have hlen : ¬ st.gpt4keys.length = 0 :=
      fun h0 => hne (List.length_eq_zero.mp h0)
    refine ⟨st.gpt4keys.getD (pick % st.gpt4keys.length) "", ?_, getD_mod_mem _ hlen _⟩
    rw [h3]
    simp [hsel, hlen]
  · intro h3e h4e
    have hsel : selectKeys KeyType.GPT3 st = [] := by
      simp [selectKeys, h3e, h4e]
    rw [h3]
    simp [hsel]

/-- Claim C6, witness: on a populated pool holding the Standard key "s6"
and the Premium key "p6", tier `HIGHEST` yields a Premium key and tier
`GPT3` yields a Standard key. -/
theorem C6_tier_selection_witness :
    envTruthy (none : Option String) = false ∧
    (∃ k, (getKey ⟨none, none, none⟩ [] ⟨true, ["s6"], ["p6"]⟩ 0 KeyType.HIGHEST).1
        = Except.ok k ∧ k ∈ ["p6"]) ∧
    (∃ k, (getKey ⟨none, none, none⟩ [] ⟨true, ["s6"], ["p6"]⟩ 0 KeyType.GPT3).1
        = Except.ok k ∧ k ∈ ["s6"]) :=
  ⟨by decide,
   (C6_tier_selection ⟨none, none, none⟩ [] ⟨true, ["s6"], ["p6"]⟩ 0
      (by decide) (by decide)).1 (by decide),
   (C6_tier_selection ⟨none, none, none⟩ [] ⟨true, ["s6"], ["p6"]⟩ 0
      (by decide) (by decide)).2.2.2.1 (by decide)⟩

/-- Claim C7, counterexample. The claim states that in any sequence of
acquire calls with no override and no intervening eviction, the source is
loaded exactly once, during the first call. With an empty credential
source, the first `getKey` loads, finds no key for the requested tier, and
throws before the line `this.initialized = true` runs; the second call
therefore loads again: the two-call sequence performs two loads, not one. -/
theorem C7_counterexample :
    (runGetKeys ⟨none, some "s", some "a"⟩ [] [(0, KeyType.HIGHEST), (0, KeyType.HIGHEST)]
        ⟨false, [], []⟩).2 = 2 ∧
    ¬ (runGetKeys ⟨none, some "s", some "a"⟩ [] [(0, KeyType.HIGHEST), (0, KeyType.HIGHEST)]
        ⟨false, [], []⟩).2 = 1 := by decide

/-- Claim C7, amended: for a sequence of acquire calls with no override
configured and no intervening eviction, started from the initial (empty,
uninitialized) pool, *provided the first call succeeds*, the credential
source is loaded exactly once — during that first call — the loaded records
are partitioned by tier into the two sets, the `initialized` flag is set,
and no later acquire in the sequence triggers another load. (When the
first call throws `NoCredentialsAvailable`, `initialized` stays false and
the next call loads again, as the counterexample shows.) -/
theorem C7_amended (env : Env) (source : List KeyRecord) (p0 : Nat) (ty0 : KeyType)
    (rest : List (Nat × KeyType)) (k : String)
    (hov : envTruthy env.OPENAI_API_KEY = false)
    (hs : (getKey env source ⟨false, [], []⟩ p0 ty0).1 = Except.ok k) :
    (getKey env source ⟨false, [], []⟩ p0 ty0).2.2 = 1 ∧
    (getKey env source ⟨false, [], []⟩ p0 ty0).2.1 =
      ⟨true, gpt3Part (loadKeys source), gpt4Part (loadKeys source)⟩ ∧
    (runGetKeys env source ((p0, ty0) :: rest) ⟨false, [], []⟩).2 = 1 := by
  have hpush : pushKeys (loadKeys source) ⟨false, [], []⟩ =
      ⟨false, gpt3Part (loadKeys source), gpt4Part (loadKeys source)⟩ := by
    rw [pushKeys_eq]
    simp
  have hcount : (getKey env source ⟨false, [], []⟩ p0 ty0).2.2 = 1 := by
    simp only [getKey, hov, Bool.false_eq_true, if_false, Bool.not_false, if_true]
    split <;> rfl
  have hstate : (getKey env source ⟨false, [], []⟩ p0 ty0).2.1 =
      ⟨true, gpt3Part (loadKeys source), gpt4Part (loadKeys source)⟩ := by
    simp only [getKey, hov, Bool.false_eq_true, if_false, Bool.not_false, if_true] at hs ⊢
    split at hs
    · exact absurd hs (by simp)
    · rename_i hlen
      simp only [hpush] at hlen ⊢
      rw [if_neg hlen]
  refine ⟨hcount, hstate, ?_⟩
  have hinit : ((getKey env source ⟨false, [], []⟩ p0 ty0).2.1).initialized = true := by
    rw [hstate]
  have hrest := runGetKeys_initialized env source rest
    ((getKey env source ⟨false, [], []⟩ p0 ty0).2.1) hov hinit
  simp [runGetKeys, hrest, hcount]

/-- Claim C7, witness: a successful first acquire on a one-record source
loads once, partitions, marks the pool initialized, and a following second
acquire adds no further load: the two-call sequence loads exactly once. -/
theorem C7_amended_witness :
    (getKey ⟨none, none, none⟩ [⟨"w7", "gpt-3"⟩] ⟨false, [], []⟩ 0 KeyType.HIGHEST).2.2 = 1 ∧
    (getKey ⟨none, none, none⟩ [⟨"w7", "gpt-3"⟩] ⟨false, [], []⟩ 0 KeyType.HIGHEST).2.1
      = ⟨true, gpt3Part (loadKeys [⟨"w7", "gpt-3"⟩]), gpt4Part (loadKeys [⟨"w7", "gpt-3"⟩])⟩ ∧
    (runGetKeys ⟨none, none, none⟩ [⟨"w7", "gpt-3"⟩] [(0, KeyType.HIGHEST), (1, KeyType.GPT3)]
        ⟨false, [], []⟩).2 = 1 :=
  C7_amended ⟨none, none, none⟩ [⟨"w7", "gpt-3"⟩] 0 KeyType.HIGHEST [(1, KeyType.GPT3)] "w7"
    (by decide) rfl

/-- Claim C8, counterexample. The claim states that after `evict(c)`
returns true (the key server no longer lists `c`), the next acquire
triggers exactly one reload and never returns `c`. With the static
override `OPENAI_API_KEY = "c"` configured, `evict("c")` returns true and
clears the pool, but the next acquire returns the override `"c"` itself
and performs zero reloads — both halves of the claim fail. -/
theorem C8_counterexample :
    deleteKey ⟨some "c", some "s", some "a"⟩ "c" true ⟨true, [], ["c"]⟩
      = (Except.ok true, ⟨false, [], []⟩) ∧
    getKey ⟨some "c", some "s", some "a"⟩ [⟨"k4", "gpt-4"⟩] ⟨false, [], []⟩ 0 KeyType.HIGHEST
      = (Except.ok "c", ⟨false, [], []⟩, 0) ∧
    "c" ∉ (loadKeys [⟨"k4", "gpt-4"⟩]).map Key.key := by
  refine ⟨rfl, rfl, ?_⟩
  decide

/-- Claim C8, amended: with no override credential configured, after a
successful `evict(c)` (key server configured and reporting success, so the
pool is cleared and uninitialized), the next acquire performs exactly one
reload from the credential source, and — since the source no longer lists
`c` — whatever key it returns is never `c`. -/
theorem C8_amended (env : Env) (source : List KeyRecord) (c : String)
    (st : KeyStoreState) (pick : Nat) (ty : KeyType)
    (hov : envTruthy env.OPENAI_API_KEY = false)
    (hs : envTruthy env.OPENAI_API_KEY_SERVER = true)
    (ha : envTruthy env.OPENAI_API_KEY_SERVER_AUTH = true)
    (hc : c ∉ (loadKeys source).map Key.key) :
    deleteKey env c true st = (Except.ok true, ⟨false, [], []⟩) ∧
    (getKey env source ⟨false, [], []⟩ pick ty).2.2 = 1 ∧
    ∀ k, (getKey env source ⟨false, [], []⟩ pick ty).1 = Except.ok k → k ≠ c := by
  have hpush : pushKeys (loadKeys source) ⟨false, [], []⟩ =
      ⟨false, gpt3Part (loadKeys source), gpt4Part (loadKeys source)⟩ := by
    rw [pushKeys_eq]
    simp
  refine ⟨deleteKey_configured env c true st hs ha, ?_, ?_⟩
  · simp only [getKey, hov, Bool.false_eq_true, if_false, Bool.not_false, if_true]
    split <;> rfl
  · intro k hk
    simp only [getKey, hov, Bool.false_eq_true, if_false, Bool.not_false, if_true] at hk
    split at hk
    · exact absurd hk (by simp)
    · rename_i hlen
      have hkval : k = (selectKeys ty (pushKeys (loadKeys source) ⟨false, [], []⟩)).getD
          (pick % (selectKeys ty (pushKeys (loadKeys source) ⟨false, [], []⟩)).length) "" := by
        simpa using hk.symm
      have hmem : k ∈ selectKeys ty (pushKeys (loadKeys source) ⟨false, [], []⟩) := by
        rw [hkval]
        exact getD_mod_mem _ hlen _
      have hmem2 := mem_selectKeys ty _ hmem
      rw [hpush] at hmem2
      intro hkc
      subst hkc
      rcases hmem2 with h3 | h4
      · exact hc (mem_gpt3Part h3)
      · exact hc (mem_gpt4Part h4)

/-- Claim C8, witness: with no override, after evicting "c8" the next
acquire reloads once from a source listing only "w8", and the returned key
"w8" is not the evicted "c8". -/
theorem C8_amended_witness :
    deleteKey ⟨none, some "s8", some "a8"⟩ "c8" true ⟨true, ["c8"], []⟩
      = (Except.ok true, ⟨false, [], []⟩) ∧
    (getKey ⟨none, some "s8", some "a8"⟩ [⟨"w8", "gpt-4"⟩] ⟨false, [], []⟩ 0
        KeyType.HIGHEST).2.2 = 1 ∧
    "w8" ≠ "c8" :=
  ⟨(C8_amended ⟨none, some "s8", some "a8"⟩ [⟨"w8", "gpt-4"⟩] "c8" ⟨true, ["c8"], []⟩ 0
      KeyType.HIGHEST (by decide) (by decide) (by decide) (by decide)).1,
   (C8_amended ⟨none, some "s8", some "a8"⟩ [⟨"w8", "gpt-4"⟩] "c8" ⟨true, ["c8"], []⟩ 0
      KeyType.HIGHEST (by decide) (by decide) (by decide) (by decide)).2.1,
   (C8_amended ⟨none, some "s8", some "a8"⟩ [⟨"w8", "gpt-4"⟩] "c8" ⟨true, ["c8"], []⟩ 0
      KeyType.HIGHEST (by decide) (by decide) (by decide) (by decide)).2.2 "w8" rfl⟩

/-- Claim C9 (confirmed): for every tier argument and every pool state,
when a static override credential is configured (a truthy
`OPENAI_API_KEY`), `getKey` returns that override credential, performs no
load from the credential source, and leaves the pool state — both key sets
and the `initialized` flag — unchanged. -/
theorem C9_override (env : Env) (source : List KeyRecord) (st : KeyStoreState)
    (pick : Nat) (ty : KeyType) (hov : envTruthy env.OPENAI_API_KEY = true) :
    getKey env source st pick ty = (Except.ok (env.OPENAI_API_KEY.getD ""), st, 0) := by
  simp [getKey, hov]

/-- Claim C9, witness: with override "ov" configured, an acquire on a
populated pool returns "ov", does not load, and leaves the state intact. -/
theorem C9_override_witness :
    getKey ⟨some "ov", none, none⟩ [⟨"k9", "gpt-4"⟩] ⟨true, ["a"], ["b"]⟩ 5 KeyType.GPT3
      = (Except.ok "ov", ⟨true, ["a"], ["b"]⟩, 0) :=
  C9_override ⟨some "ov", none, none⟩ [⟨"k9", "gpt-4"⟩] ⟨true, ["a"], ["b"]⟩ 5 KeyType.GPT3
    (by decide)

/-- Claim C10 (confirmed): the model id "gpt-3" maps to the Standard tier
(`KeyType.GPT3`) and the initial attempt from the fresh pool resolves the
Standard key "k3"; yet after an `invalid_api_key` response, the relay —
whose retry acquires with the default `HIGHEST` tier (`KeyStore.getKey()`
on line 161) rather than the model-derived tier — completes the retried
request with "k4", a Premium (gpt-4) credential from the same source. -/
theorem C10_retry_tier :
    keyTypeFor "gpt-3" = KeyType.GPT3 ∧
    (getKey ⟨none, some "s", some "a"⟩ [⟨"k3", "gpt-3"⟩, ⟨"k4", "gpt-4"⟩] ⟨false, [], []⟩ 0
        (keyTypeFor "gpt-3")).1 = Except.ok "k3" ∧
    "k3" ∈ gpt3Part (loadKeys [⟨"k3", "gpt-3"⟩, ⟨"k4", "gpt-4"⟩]) ∧
    (openAIStream ⟨none, some "s", some "a"⟩ [⟨"k3", "gpt-3"⟩, ⟨"k4", "gpt-4"⟩] (fun _ => 0)
        (fun _ => true) "gpt-3" ""
        [⟨401, UpBody.withError "invalid_api_key" "bad", []⟩, ⟨200, UpBody.noError "OK", []⟩]
        ⟨false, [], []⟩).1 = Except.ok ([], "k4") ∧
    "k4" ∈ gpt4Part (loadKeys [⟨"k3", "gpt-3"⟩, ⟨"k4", "gpt-4"⟩]) := by
  refine ⟨rfl, rfl, ?_, rfl, ?_⟩ <;> decide
